import Mathlib

/-!
Verification development for the data synchronization and migration layer of
the crm3 repository: the timestamp codec, the entity collection services and
the migration service of src/src/services/firebaseService.ts, and the CRUD
facade of the useFirebaseData hook.  JS/Firestore values are shallowly
embedded as the mutual inductive `Value`; each operation is translated from
the TypeScript source, keyed to the source line numbers it embeds.
-/

namespace Crm3

mutual
/--
Model of the JS values stored in documents and passed through the timestamp
codec.  `prim` covers JS primitives and null (never recursed into by either
codec direction, because the guard of JS type object together with
truthiness excludes them); `date` is a native Date carrying its
epoch-millisecond value; `timestamp` is a Firestore Timestamp carrying the
same instant; `arr` is a JS array; `obj` is a plain JS object as an ordered
field list (JS object keys are unique and ordered).
-/
inductive Value : Type where
  | prim : String → Value
  | date : Int → Value
  | timestamp : Int → Value
  | arr : ValueList → Value
  | obj : Fields → Value
deriving DecidableEq, Repr

/-- Elements of a JS array. -/
inductive ValueList : Type where
  | nil : ValueList
  | cons : Value → ValueList → ValueList
deriving DecidableEq, Repr

/-- Ordered key/value fields of a plain JS object. -/
inductive Fields : Type where
  | nil : Fields
  | cons : String → Value → Fields → Fields
deriving DecidableEq, Repr
end

/-- Builds a `Fields` value from a list literal. -/
def fieldsOf : List (String × Value) → Fields
  | [] => .nil
  | (k, v) :: rest => .cons k v (fieldsOf rest)

/-- Builds a `ValueList` from a list literal. -/
def vlistOf : List Value → ValueList
  | [] => .nil
  | v :: rest => .cons v (vlistOf rest)

/-- JS property read on an object (object keys are unique, first match). -/
def Fields.lookup : Fields → String → Option Value
  | .nil, _ => none
  | .cons k v rest, k2 => if k = k2 then some v else rest.lookup k2

/-- JS assignment of one key in an object literal spread such as writing
key k after spreading the base object: an existing key keeps its position
and takes the new value, a new key is appended at the end. -/
def Fields.set : Fields → String → Value → Fields
  | .nil, k, v => .cons k v .nil
  | .cons k2 v2 rest, k, v => if k2 = k then .cons k v rest else .cons k2 v2 (rest.set k v)

/-- JS rest-destructuring that drops one key, as in taking id out of a
record and keeping the rest. -/
def Fields.remove : Fields → String → Fields
  | .nil, _ => .nil
  | .cons k2 v2 rest, k => if k2 = k then rest.remove k else .cons k2 v2 (rest.remove k)

/-- Key a JS object spread assigns to array element i: its decimal digits. -/
def idxKey (i : Nat) : String := toString i

/-- Prepends array elements, keyed by position, to a field list: spreading
a JS array into an object literal enumerates its elements under the keys
of `idxKey` (the array length property is not own enumerable and drops). -/
def enumFields : Nat → ValueList → Fields
  | _, .nil => .nil
  | i, .cons v rest => .cons (idxKey i) v (enumFields (i + 1) rest)

mutual
/--
Per-key transformation performed by the loop of convertTimestamps
(firebaseService.ts lines 33 to 46) on one field value: a Timestamp becomes
a Date via toDate; any other truthy value of JS type object is recursed
into via convertTimestamps, whose spread of the value into a fresh object
literal turns an array into a plain object keyed by element position and
turns a native Date (which has no own enumerable properties) into the empty
object; primitives and null fail the guard and pass through untouched.
There is no Array.isArray guard in this direction in the source.
-/
def convTsEntry : Value → Value
  | .timestamp ms => .date ms
  | .obj fs => .obj (convTsFields fs)
  | .arr l => .obj (enumFields 0 (convTsElems l))
  | .date _ => .obj .nil
  | .prim p => .prim p

/-- The key loop of convertTimestamps over the spread copy of an object. -/
def convTsFields : Fields → Fields
  | .nil => .nil
  | .cons k v rest => .cons k (convTsEntry v) (convTsFields rest)

/-- convertTimestamps recursed over the positional spread of an array. -/
def convTsElems : ValueList → ValueList
  | .nil => .nil
  | .cons v rest => .cons (convTsEntry v) (convTsElems rest)
end

/-- convertTimestamps (firebaseService.ts lines 33 to 46) applied to
document data, which is always a plain object: copy the object and run the
per-key conversion loop. -/
def convertTimestamps (fields : Fields) : Fields :=
  convTsFields fields

mutual
/--
Per-key transformation performed by the loop of convertDatesToTimestamps
(firebaseService.ts lines 49 to 62) on one field value: a native Date
becomes a Timestamp via Timestamp.fromDate; a truthy object that is not an
array is recursed into; an array is left untouched by the explicit
Array.isArray guard; primitives and null fail the guard.  A Timestamp input
never occurs in this codebase (entities carry native Date values, never
store timestamps) and is modelled as untouched.
-/
def convDatesEntry : Value → Value
  | .date ms => .timestamp ms
  | .obj fs => .obj (convDatesFields fs)
  | .arr l => .arr l
  | .timestamp ms => .timestamp ms
  | .prim p => .prim p

/-- The key loop of convertDatesToTimestamps over the spread copy. -/
def convDatesFields : Fields → Fields
  | .nil => .nil
  | .cons k v rest => .cons k (convDatesEntry v) (convDatesFields rest)
end

/-- convertDatesToTimestamps (firebaseService.ts lines 49 to 62) applied to
document data or an entity payload, always a plain object. -/
def convertDatesToTimestamps (fields : Fields) : Fields :=
  convDatesFields fields

/-- Field keys used by the services. -/
def kUserId : String := "userId"

/-- The createdAt key. -/
def kCreatedAt : String := "createdAt"

/-- The updatedAt key. -/
def kUpdatedAt : String := "updatedAt"

/-- The id key of a local record. -/
def kId : String := "id"

/-- The contact name key. -/
def kName : String := "name"

/-- The order date key. -/
def kOrderDate : String := "orderDate"

/-- The note and reminder date key. -/
def kDate : String := "date"

/-- A document in one Firestore collection: the store-assigned document id
and the stored data object. -/
structure StoredDoc where
  id : String
  data : Fields
deriving DecidableEq, Repr

/-- Decoding applied to every fetched document: the object built as id plus
the spread of convertTimestamps over the document data. -/
def decodeDoc (d : StoredDoc) : StoredDoc :=
  ⟨d.id, convertTimestamps d.data⟩

/-- The query constraint construction shared by every getAll and onSnapshot
(for example firebaseService.ts lines 69 to 75): when a userId argument is
supplied, a where clause restricts to documents whose userId field equals
it; when it is omitted, no constraint is pushed and the whole collection is
returned. -/
def filterByOwner (docs : List StoredDoc) (userId : Option String) : List StoredDoc :=
  match userId with
  | some u => docs.filter (fun d => d.data.lookup kUserId == some (.prim u))
  | none => docs

/-- contactsService.getAll (lines 67 to 86): owner filter, decode each
document.  No sort is applied to contacts in the source. -/
def contactsGetAll (store : List StoredDoc) (userId : Option String) : List StoredDoc :=
  (filterByOwner store userId).map decodeDoc

/-- The list contactsService.onSnapshot (lines 151 to 169) delivers to its
callback on each snapshot: same owner filter and decode, and again no sort. -/
def contactsSnapshotList (store : List StoredDoc) (userId : Option String) : List StoredDoc :=
  (filterByOwner store userId).map decodeDoc

/-- Result of new Date(v).getTime() for the value shapes the date fields of
decoded documents have (a native Date after timestamp decoding). -/
def jsDateMs : Value → Int
  | .date ms => ms
  | _ => 0

/-- The numeric sort key the client-side comparators read from a decoded
document at a given date field. -/
def dateFieldKey (field : String) (d : StoredDoc) : Int :=
  match d.data.lookup field with
  | some v => jsDateMs v
  | none => 0

/-- Sort key of ordersService comparators: the orderDate field. -/
def orderKey (d : StoredDoc) : Int := dateFieldKey kOrderDate d

/-- Sort key of remindersService comparators: the date field. -/
def reminderKey (d : StoredDoc) : Int := dateFieldKey kDate d

/-- ordersService.getAll (lines 264 to 293): owner filter, decode, then the
client-side sort with comparator dateB minus dateA, i.e. descending by
order date.  JS sort is stable, so it is modelled by stable insertion
sort under the comparator-induced relation. -/
def ordersGetAll (store : List StoredDoc) (userId : Option String) : List StoredDoc :=
  List.insertionSort (fun a b => orderKey b ≤ orderKey a)
    ((filterByOwner store userId).map decodeDoc)

/-- remindersService.getAll (lines 480 to 509): owner filter, decode, then
the client-side sort with comparator dateA minus dateB, i.e. ascending by
due date. -/
def remindersGetAll (store : List StoredDoc) (userId : Option String) : List StoredDoc :=
  List.insertionSort (fun a b => reminderKey a ≤ reminderKey b)
    ((filterByOwner store userId).map decodeDoc)

/-- Payload written by contactsService.add (lines 103 to 119): spread of the
date-encoded entity, then userId, then createdAt and updatedAt as server
timestamps. -/
def contactAddPayload (entity : Fields) (uid : String) (now : Int) : Fields :=
  (((convertDatesToTimestamps entity).set kUserId (.prim uid)).set kCreatedAt
      (.timestamp now)).set kUpdatedAt (.timestamp now)

/-- contactsService.add: appends a document under the store-assigned id and
returns that id. -/
def contactsAdd (col : List StoredDoc) (entity : Fields) (uid : String) (now : Int)
    (fid : String) : String × List StoredDoc :=
  (fid, col ++ [⟨fid, contactAddPayload entity uid now⟩])

/-- Payload written by notesService.add (lines 405 to 420): spread of the
date-encoded entity, then userId, then createdAt only — no updatedAt is
written for notes. -/
def noteAddPayload (entity : Fields) (uid : String) (now : Int) : Fields :=
  ((convertDatesToTimestamps entity).set kUserId (.prim uid)).set kCreatedAt (.timestamp now)

/-- notesService.add: appends a document under the store-assigned id and
returns that id. -/
def notesAdd (col : List StoredDoc) (entity : Fields) (uid : String) (now : Int)
    (fid : String) : String × List StoredDoc :=
  (fid, col ++ [⟨fid, noteAddPayload entity uid now⟩])

/-- Payload written by remindersService.add (lines 511 to 526): spread of
the date-encoded entity, then userId, then createdAt only — no updatedAt is
written for reminders. -/
def reminderAddPayload (entity : Fields) (uid : String) (now : Int) : Fields :=
  ((convertDatesToTimestamps entity).set kUserId (.prim uid)).set kCreatedAt (.timestamp now)

/-- remindersService.add: appends a document under the store-assigned id and
returns that id. -/
def remindersAdd (col : List StoredDoc) (entity : Fields) (uid : String) (now : Int)
    (fid : String) : String × List StoredDoc :=
  (fid, col ++ [⟨fid, reminderAddPayload entity uid now⟩])

/-- Firestore updateDoc merge of a flat payload into existing document
data: each payload key is written over the data, other keys keep their
prior values. -/
def applyPatch (data : Fields) (patch : Fields) : Fields :=
  match patch with
  | .nil => data
  | .cons k v rest => applyPatch (data.set k v) rest

/-- Payload of contactsService.update (lines 122 to 136): spread of the
date-encoded patch, then updatedAt as a server timestamp. -/
def contactUpdatePayload (patch : Fields) (now : Int) : Fields :=
  (convertDatesToTimestamps patch).set kUpdatedAt (.timestamp now)

/-- contactsService.update applied to the matching document. -/
def contactUpdateDoc (d : StoredDoc) (patch : Fields) (now : Int) : StoredDoc :=
  ⟨d.id, applyPatch d.data (contactUpdatePayload patch now)⟩

/-- contactsService.update over the collection: only the document with the
given id is rewritten. -/
def contactsUpdate (col : List StoredDoc) (id : String) (patch : Fields) (now : Int) :
    List StoredDoc :=
  col.map fun d => if d.id = id then contactUpdateDoc d patch now else d

/-- ordersService.update (lines 313 to 327): same payload shape as contacts,
date-encoded patch plus server-stamped updatedAt. -/
def ordersUpdate (col : List StoredDoc) (id : String) (patch : Fields) (now : Int) :
    List StoredDoc :=
  col.map fun d => if d.id = id then ⟨d.id, applyPatch d.data (contactUpdatePayload patch now)⟩ else d

/-- notesService.update (lines 422 to 433) applied to the matching
document: the date-encoded patch alone is merged; no updatedAt is stamped. -/
def noteUpdateDoc (d : StoredDoc) (patch : Fields) : StoredDoc :=
  ⟨d.id, applyPatch d.data (convertDatesToTimestamps patch)⟩

/-- notesService.update over the collection. -/
def notesUpdate (col : List StoredDoc) (id : String) (patch : Fields) : List StoredDoc :=
  col.map fun d => if d.id = id then noteUpdateDoc d patch else d

/-- remindersService.update (lines 528 to 539): date-encoded patch merged,
no updatedAt stamp, like notes. -/
def remindersUpdate (col : List StoredDoc) (id : String) (patch : Fields) : List StoredDoc :=
  col.map fun d => if d.id = id then ⟨d.id, applyPatch d.data (convertDatesToTimestamps patch)⟩ else d

/-- deleteDoc for contacts (lines 139 to 148): hard delete by id. -/
def contactsDelete (col : List StoredDoc) (id : String) : List StoredDoc :=
  col.filter fun d => d.id != id

/-- deleteDoc for notes (lines 435 to 444). -/
def notesDelete (col : List StoredDoc) (id : String) : List StoredDoc :=
  col.filter fun d => d.id != id

/-- Classified failure of a store call (spec section 7 taxonomy). -/
inductive StoreError : Type where
  | permissionDenied : StoreError
  | missingIndex : StoreError
  | transport : StoreError
  | other : StoreError
deriving DecidableEq, Repr

/-- Errors surfaced by the migration path.  The store constructor is a raw
store error propagated unchanged.  The migration constructor is modelled
from the spec: section 7 defines a MigrationError wrapping the underlying
StoreError; the source defines no such wrapper type, and the theorems below
show the code never produces this constructor. -/
inductive AppError : Type where
  | store : StoreError → AppError
  | migration : StoreError → AppError
deriving DecidableEq, Repr

/-- Whether a migration result carries the spec-level MigrationError
wrapper. -/
def errIsMigrationWrapper : Except AppError α → Bool
  | .error (.migration _) => true
  | _ => false

/-- The local dataset handed to migrationService.migrateAllData (lines 980
to 987): arrays of local records for the five list kinds plus an optional
vendor profile; each local record is a plain object that may carry a local
id key. -/
structure Dataset where
  contacts : List Fields
  products : List Fields
  orders : List Fields
  notes : List Fields
  reminders : List Fields
  vendorInfo : Option Fields
deriving DecidableEq, Repr

/-- The six remote collections plus the id generator position of the store
(doc(collection(db, c)) draws a fresh id from the store generator). -/
structure Store6 where
  contacts : List StoredDoc
  products : List StoredDoc
  orders : List StoredDoc
  notes : List StoredDoc
  reminders : List StoredDoc
  vendorInfo : List StoredDoc
  nextId : Nat
deriving DecidableEq, Repr

/-- The id the store generator yields at position n. -/
def freshId (n : Nat) : String := "gen-" ++ toString n

/-- The ids the store generator yields at n consecutive positions. -/
def genIds : Nat → Nat → List String
  | _, 0 => []
  | start, n + 1 => freshId start :: genIds (start + 1) n

/-- Spread of a record body followed by userId, createdAt and updatedAt as
server timestamps (the batched payload shape of contacts, products, orders
and vendor info in lines 1006 to 1011, 1019 to 1024, 1033 to 1038 and 1071
to 1076). -/
def stampBoth (uid : String) (now : Int) (body : Fields) : Fields :=
  ((body.set kUserId (.prim uid)).set kCreatedAt (.timestamp now)).set kUpdatedAt (.timestamp now)

/-- Spread of a record body followed by userId and createdAt only (the
batched payload shape of notes and reminders in lines 1047 to 1051 and 1060
to 1064 — no updatedAt). -/
def stampCreated (uid : String) (now : Int) (body : Fields) : Fields :=
  (body.set kUserId (.prim uid)).set kCreatedAt (.timestamp now)

/-- One for-loop of migrateAllData over the records of one list kind: drop
the local id by rest-destructuring, date-encode the body when the loop does
(products, lines 1016 to 1025, writes the record without encoding), stamp
the owner and timestamps, and address the document at the next
store-generated id. -/
def migrateKind (encode stampUpdated : Bool) (uid : String) (now : Int) :
    Nat → List Fields → List StoredDoc
  | _, [] => []
  | n, r :: rest =>
    let body := r.remove kId
    let body2 := if encode then convertDatesToTimestamps body else body
    let payload := if stampUpdated then stampBoth uid now body2 else stampCreated uid now body2
    ⟨freshId n, payload⟩ :: migrateKind encode stampUpdated uid now (n + 1) rest

/-- Total document count of the store. -/
def totalDocs (s : Store6) : Nat :=
  s.contacts.length + s.products.length + s.orders.length + s.notes.length
    + s.reminders.length + s.vendorInfo.length

/-- Total record count of a dataset across the six kinds. -/
def datasetSize (ds : Dataset) : Nat :=
  ds.contacts.length + ds.products.length + ds.orders.length + ds.notes.length
    + ds.reminders.length + (match ds.vendorInfo with | some _ => 1 | none => 0)

/--
migrationService.migrateAllData (lines 979 to 1087): build one write batch
holding every record of the six kinds — contacts encoded and double
stamped, products unencoded and double stamped, orders encoded and double
stamped, notes and reminders encoded with createdAt only, and the vendor
record (when present, lines 1069 to 1078) spread verbatim with no local id
removal and no date encoding — then commit the batch once.  A Firestore
write batch is atomic by the store contract (spec section 6): a successful
commit applies every buffered write, a rejected commit applies none.  The
commitFailure parameter is the outcome of that single commit; on rejection
the catch block (lines 1082 to 1085) logs and rethrows the raw error.
-/
def migrateAllData (ds : Dataset) (uid : String) (s : Store6) (now : Int)
    (commitFailure : Option StoreError) : Except AppError Store6 :=
  let n0 := s.nextId
  let newContacts := migrateKind true true uid now n0 ds.contacts
  let n1 := n0 + ds.contacts.length
  let newProducts := migrateKind false true uid now n1 ds.products
  let n2 := n1 + ds.products.length
  let newOrders := migrateKind true true uid now n2 ds.orders
  let n3 := n2 + ds.orders.length
  let newNotes := migrateKind true false uid now n3 ds.notes
  let n4 := n3 + ds.notes.length
  let newReminders := migrateKind true false uid now n4 ds.reminders
  let n5 := n4 + ds.reminders.length
  let newVendor := match ds.vendorInfo with
    | some v => [⟨freshId n5, stampBoth uid now v⟩]
    | none => []
  let n6 := n5 + (match ds.vendorInfo with | some _ => 1 | none => 0)
  match commitFailure with
  | some e => .error (.store e)
  | none => .ok ⟨s.contacts ++ newContacts, s.products ++ newProducts, s.orders ++ newOrders,
      s.notes ++ newNotes, s.reminders ++ newReminders, s.vendorInfo ++ newVendor, n6⟩

/-- Failure of a facade call of the useFirebaseData hook made with no
active session (the thrown User not authenticated error). -/
inductive HookError : Type where
  | notAuthenticated : HookError
deriving DecidableEq, Repr

/-- useFirebaseData.addContact (part_002 lines 170 to 173): throws before
any store call when no session is active, otherwise delegates to
contactsService.add under the session owner. -/
def hookAddContact (session : Option String) (col : List StoredDoc) (entity : Fields)
    (now : Int) (fid : String) : Except HookError (String × List StoredDoc) :=
  match session with
  | none => .error .notAuthenticated
  | some uid => .ok (contactsAdd col entity uid now fid)

/-- useFirebaseData.addNote (part_002 lines 209 to 212): session checked. -/
def hookAddNote (session : Option String) (col : List StoredDoc) (entity : Fields)
    (now : Int) (fid : String) : Except HookError (String × List StoredDoc) :=
  match session with
  | none => .error .notAuthenticated
  | some uid => .ok (notesAdd col entity uid now fid)

/-- useFirebaseData.addReminder (part_002 lines 222 to 225): session
checked. -/
def hookAddReminder (session : Option String) (col : List StoredDoc) (entity : Fields)
    (now : Int) (fid : String) : Except HookError (String × List StoredDoc) :=
  match session with
  | none => .error .notAuthenticated
  | some uid => .ok (remindersAdd col entity uid now fid)

/-- useFirebaseData.updateContact (part_002 lines 175 to 177): delegates to
contactsService.update with no session check at all. -/
def hookUpdateContact (_session : Option String) (col : List StoredDoc) (id : String)
    (patch : Fields) (now : Int) : Except HookError (List StoredDoc) :=
  .ok (contactsUpdate col id patch now)

/-- useFirebaseData.deleteContact (part_002 lines 179 to 181): no session
check. -/
def hookDeleteContact (_session : Option String) (col : List StoredDoc) (id : String) :
    Except HookError (List StoredDoc) :=
  .ok (contactsDelete col id)

/-- useFirebaseData.updateOrder (part_002 lines 201 to 203): no session
check. -/
def hookUpdateOrder (_session : Option String) (col : List StoredDoc) (id : String)
    (patch : Fields) (now : Int) : Except HookError (List StoredDoc) :=
  .ok (ordersUpdate col id patch now)

/-- useFirebaseData.updateNote (part_002 lines 214 to 216): no session
check. -/
def hookUpdateNote (_session : Option String) (col : List StoredDoc) (id : String)
    (patch : Fields) : Except HookError (List StoredDoc) :=
  .ok (notesUpdate col id patch)

/-- useFirebaseData.deleteNote (part_002 lines 218 to 220): no session
check. -/
def hookDeleteNote (_session : Option String) (col : List StoredDoc) (id : String) :
    Except HookError (List StoredDoc) :=
  .ok (notesDelete col id)

/-- useFirebaseData.updateReminder (part_002 lines 227 to 229): no session
check. -/
def hookUpdateReminder (_session : Option String) (col : List StoredDoc) (id : String)
    (patch : Fields) : Except HookError (List StoredDoc) :=
  .ok (remindersUpdate col id patch)

/-- Concrete two-owner contact store used by witnesses. -/
def twoOwnerStore : List StoredDoc :=
  [⟨"c1", fieldsOf [("userId", .prim ("u1")), ("name", .prim ("alice"))]⟩,
   ⟨"c2", fieldsOf [("userId", .prim ("u2")), ("name", .prim ("bob"))]⟩]

/-- Concrete one-owner contact store whose documents arrive in an order not
sorted by name. -/
def unsortedContactsStore : List StoredDoc :=
  [⟨"c1", fieldsOf [("userId", .prim ("u")), ("name", .prim ("beta"))]⟩,
   ⟨"c2", fieldsOf [("userId", .prim ("u")), ("name", .prim ("alpha"))]⟩]

/-- Name field of a decoded contact as a string. -/
def contactNameOf (d : StoredDoc) : String :=
  match d.data.lookup kName with
  | some (.prim s) => s
  | _ => ""

/-- Concrete dataset holding only a vendor record that carries a local id
field. -/
def vendorDs : Dataset :=
  ⟨[], [], [], [], [], some (fieldsOf [("id", .prim ("local-1")), ("shopName", .prim ("v"))])⟩

/-- Concrete small dataset for the migration witness: one contact with a
local id and one note. -/
def smallDs : Dataset :=
  ⟨[fieldsOf [("id", .prim ("lc1")), ("name", .prim ("alice"))]], [], [],
   [fieldsOf [("id", .prim ("ln1")), ("text", .prim ("hello"))]], [], none⟩

/-- The empty six-collection store. -/
def emptyStore6 : Store6 := ⟨[], [], [], [], [], [], 0⟩

/-- Concrete note document used by the update counterexample. -/
def noteDoc : StoredDoc :=
  ⟨"n1", fieldsOf [("text", .prim ("a")), ("userId", .prim ("u")),
    ("createdAt", .timestamp 1), ("updatedAt", .timestamp 1)]⟩

/-- Concrete contact document used by the update witness. -/
def contactDoc : StoredDoc :=
  ⟨"c1", fieldsOf [("name", .prim ("alice")), ("phone", .prim ("123")),
    ("userId", .prim ("u")), ("createdAt", .timestamp 1), ("updatedAt", .timestamp 1)]⟩

/-- Concrete orders store with three distinct order dates out of order. -/
def ordersStore3 : List StoredDoc :=
  [⟨"o1", fieldsOf [("userId", .prim ("u")), ("orderDate", .timestamp 2)]⟩,
   ⟨"o2", fieldsOf [("userId", .prim ("u")), ("orderDate", .timestamp 9)]⟩,
   ⟨"o3", fieldsOf [("userId", .prim ("u")), ("orderDate", .timestamp 5)]⟩]

/-- Concrete reminders store with three distinct due dates out of order. -/
def remindersStore3 : List StoredDoc :=
  [⟨"r1", fieldsOf [("userId", .prim ("u")), ("date", .timestamp 7)]⟩,
   ⟨"r2", fieldsOf [("userId", .prim ("u")), ("date", .timestamp 3)]⟩,
   ⟨"r3", fieldsOf [("userId", .prim ("u")), ("date", .timestamp 8)]⟩]

/-- Name of a contact as its character sequence, for stating lexicographic
order kernel-decidably. -/
def nameChars (d : StoredDoc) : List Char := (contactNameOf d).data

deriving instance DecidableEq for Except

/-- Concrete one-document contact store used by the hook counterexample. -/
def hookStoreC : List StoredDoc :=
  [⟨"c1", fieldsOf [("userId", .prim ("u")), ("name", .prim ("old"))]⟩]

/-- Lookup of a written key finds the written value. -/
theorem Fields.lookup_set_self : (fs : Fields) → (k : String) → (v : Value) →
    (fs.set k v).lookup k = some v
  | .nil, k, v => by simp [Fields.set, Fields.lookup]
  | .cons k2 v2 rest, k, v => by
    by_cases h : k2 = k
    · simp [Fields.set, h, Fields.lookup]
    · simp [Fields.set, h, Fields.lookup, Fields.lookup_set_self rest k v]

/-- Lookup of a different key is unchanged by a write. -/
theorem Fields.lookup_set_ne : (fs : Fields) → (k : String) → (v : Value) → (k2 : String) →
    k ≠ k2 → (fs.set k v).lookup k2 = fs.lookup k2
  | .nil, k, v, k2, h => by simp [Fields.set, Fields.lookup, h]
  | .cons k3 v3 rest, k, v, k2, h => by
    by_cases h3 : k3 = k
    · subst h3
      simp [Fields.set, Fields.lookup, h]
    · simp [Fields.set, h3, Fields.lookup, Fields.lookup_set_ne rest k v k2 h]

/-- Lookup of a removed key yields nothing. -/
theorem Fields.lookup_remove_self : (fs : Fields) → (k : String) →
    (fs.remove k).lookup k = none
  | .nil, _ => rfl
  | .cons k2 v2 rest, k => by
    by_cases h : k2 = k
    · simp [Fields.remove, h, Fields.lookup_remove_self rest k]
    · simp [Fields.remove, h, Fields.lookup, Fields.lookup_remove_self rest k]

/-- The decoding loop rewrites each field pointwise, so lookups commute
with it. -/
theorem lookup_convTsFields : (fs : Fields) → (k : String) →
    (convTsFields fs).lookup k = (fs.lookup k).map convTsEntry
  | .nil, _ => rfl
  | .cons k2 v rest, k => by
    by_cases h : k2 = k
    · simp [convTsFields, Fields.lookup, h]
    · simp [convTsFields, Fields.lookup, h, lookup_convTsFields rest k]

/-- The encoding loop rewrites each field pointwise, so lookups commute
with it. -/
theorem lookup_convDatesFields : (fs : Fields) → (k : String) →
    (convDatesFields fs).lookup k = (fs.lookup k).map convDatesEntry
  | .nil, _ => rfl
  | .cons k2 v rest, k => by
    by_cases h : k2 = k
    · simp [convDatesFields, Fields.lookup, h]
    · simp [convDatesFields, Fields.lookup, h, lookup_convDatesFields rest k]

/-- Decoding does not change the name string of a contact: a primitive name
passes through the codec untouched, and every non-primitive shape reads as
the empty name both before and after decoding. -/
theorem contactNameOf_decodeDoc (d : StoredDoc) :
    contactNameOf (decodeDoc d) = contactNameOf d := by
  unfold contactNameOf decodeDoc convertTimestamps
  rw [lookup_convTsFields]
  cases h : d.data.lookup kName with
  | none => rfl
  | some v => cases v <;> rfl

/-- Projecting ids commutes with decoding a fetched list. -/
theorem map_id_map_decode : (l : List StoredDoc) →
    (l.map decodeDoc).map StoredDoc.id = l.map StoredDoc.id
  | [] => rfl
  | d :: rest => by simp [map_id_map_decode rest, decodeDoc]

/-- Projecting names commutes with decoding a fetched list. -/
theorem map_name_map_decode : (l : List StoredDoc) →
    (l.map decodeDoc).map contactNameOf = l.map contactNameOf
  | [] => rfl
  | d :: rest => by simp [map_name_map_decode rest, contactNameOf_decodeDoc d]

/-- stampBoth writes the owner id. -/
theorem stampBoth_lookup_userId (uid : String) (now : Int) (body : Fields) :
    (stampBoth uid now body).lookup kUserId = some (.prim uid) := by
  unfold stampBoth
  rw [Fields.lookup_set_ne _ _ _ _ (by decide), Fields.lookup_set_ne _ _ _ _ (by decide),
    Fields.lookup_set_self]

/-- stampBoth stamps createdAt. -/
theorem stampBoth_lookup_createdAt (uid : String) (now : Int) (body : Fields) :
    (stampBoth uid now body).lookup kCreatedAt = some (.timestamp now) := by
  unfold stampBoth
  rw [Fields.lookup_set_ne _ _ _ _ (by decide), Fields.lookup_set_self]

/-- stampBoth stamps updatedAt. -/
theorem stampBoth_lookup_updatedAt (uid : String) (now : Int) (body : Fields) :
    (stampBoth uid now body).lookup kUpdatedAt = some (.timestamp now) := by
  unfold stampBoth
  rw [Fields.lookup_set_self]

/-- stampBoth leaves every other key of the body alone. -/
theorem stampBoth_lookup_other (uid : String) (now : Int) (body : Fields) (g : String)
    (h1 : g ≠ kUserId) (h2 : g ≠ kCreatedAt) (h3 : g ≠ kUpdatedAt) :
    (stampBoth uid now body).lookup g = body.lookup g := by
  unfold stampBoth
  rw [Fields.lookup_set_ne _ _ _ _ (Ne.symm h3), Fields.lookup_set_ne _ _ _ _ (Ne.symm h2),
    Fields.lookup_set_ne _ _ _ _ (Ne.symm h1)]

/-- stampCreated writes the owner id. -/
theorem stampCreated_lookup_userId (uid : String) (now : Int) (body : Fields) :
    (stampCreated uid now body).lookup kUserId = some (.prim uid) := by
  unfold stampCreated
  rw [Fields.lookup_set_ne _ _ _ _ (by decide), Fields.lookup_set_self]

/-- stampCreated stamps createdAt. -/
theorem stampCreated_lookup_createdAt (uid : String) (now : Int) (body : Fields) :
    (stampCreated uid now body).lookup kCreatedAt = some (.timestamp now) := by
  unfold stampCreated
  rw [Fields.lookup_set_self]

/-- stampCreated leaves every other key of the body alone. -/
theorem stampCreated_lookup_other (uid : String) (now : Int) (body : Fields) (g : String)
    (h1 : g ≠ kUserId) (h2 : g ≠ kCreatedAt) :
    (stampCreated uid now body).lookup g = body.lookup g := by
  unfold stampCreated
  rw [Fields.lookup_set_ne _ _ _ _ (Ne.symm h2), Fields.lookup_set_ne _ _ _ _ (Ne.symm h1)]

/-- A migrated record body has no id key, whether or not it was
date-encoded. -/
theorem migrateBody_lookup_id (e : Bool) (r : Fields) :
    (if e then convertDatesToTimestamps (r.remove kId) else r.remove kId).lookup kId = none := by
  cases e
  · simp [Fields.lookup_remove_self]
  · simp [convertDatesToTimestamps, lookup_convDatesFields, Fields.lookup_remove_self]

/-- One migration loop yields one document per record. -/
theorem length_migrateKind (e b : Bool) (uid : String) (now : Int) :
    (start : Nat) → (recs : List Fields) →
    (migrateKind e b uid now start recs).length = recs.length
  | _, [] => rfl
  | start, r :: rest => by
    simp [migrateKind, length_migrateKind e b uid now (start + 1) rest]

/-- One migration loop draws consecutive generator ids. -/
theorem map_id_migrateKind (e b : Bool) (uid : String) (now : Int) :
    (start : Nat) → (recs : List Fields) →
    (migrateKind e b uid now start recs).map StoredDoc.id = genIds start recs.length
  | _, [] => rfl
  | start, r :: rest => by
    simp [migrateKind, genIds, map_id_migrateKind e b uid now (start + 1) rest]

/-- Every document a migration loop emits carries the owner id, a stamped
createdAt, and no id field. -/
theorem migrateKind_mem_stamped (e b : Bool) (uid : String) (now : Int) :
    (start : Nat) → (recs : List Fields) → (d : StoredDoc) →
    d ∈ migrateKind e b uid now start recs →
    d.data.lookup kUserId = some (.prim uid)
    ∧ d.data.lookup kCreatedAt = some (.timestamp now)
    ∧ d.data.lookup kId = none
  | _, [], d, hd => absurd hd (List.not_mem_nil d)
  | start, r :: rest, d, hd => by
    simp only [migrateKind, List.mem_cons] at hd
    rcases hd with h | h
    · subst h
      cases b
      · exact ⟨stampCreated_lookup_userId uid now _, stampCreated_lookup_createdAt uid now _,
          (stampCreated_lookup_other uid now _ kId (by decide) (by decide)).trans
            (migrateBody_lookup_id e r)⟩
      · exact ⟨stampBoth_lookup_userId uid now _, stampBoth_lookup_createdAt uid now _,
          (stampBoth_lookup_other uid now _ kId (by decide) (by decide) (by decide)).trans
            (migrateBody_lookup_id e r)⟩
    · exact migrateKind_mem_stamped e b uid now (start + 1) rest d h

/--
C2: the round-trip claim fails on the code.  For the nested structure
holding the single field items bound to the one-element array of the
primitive a, encoding leaves the array untouched (the Array.isArray guard
of convertDatesToTimestamps), but decoding recurses into the array without
any such guard and its object spread corrupts it into a plain object keyed
by position, so fromStore(toStore(x)) is not x: the items field comes back
as an object, not an array.
-/
theorem convertTimestamps_mangles_arrays :
    convertTimestamps (convertDatesToTimestamps
        (fieldsOf [("items", Value.arr (vlistOf [Value.prim ("a")]))]))
      = fieldsOf [("items", Value.obj (fieldsOf [("0", Value.prim ("a"))]))]
    ∧ convertTimestamps (convertDatesToTimestamps
        (fieldsOf [("items", Value.arr (vlistOf [Value.prim ("a")]))]))
      ≠ fieldsOf [("items", Value.arr (vlistOf [Value.prim ("a")]))] :=
  ⟨by decide, by decide⟩

/--
C3: owner isolation of getAll.  Whenever an owner id is supplied to
contactsService.getAll, every document of the returned list carries a
userId field equal to the requested owner, for any mixture of owners in the
store: the where clause keeps exactly the documents whose userId equals the
request, and decoding preserves that primitive field.
-/
theorem contacts_getAll_owner_isolation (store : List StoredDoc) (u : String) (d : StoredDoc)
    (hd : d ∈ contactsGetAll store (some u)) :
    d.data.lookup kUserId = some (Value.prim u) := by
  unfold contactsGetAll filterByOwner at hd
  obtain ⟨d0, hd0, rfl⟩ := List.mem_map.mp hd
  have hp : d0.data.lookup kUserId = some (Value.prim u) := by
    simpa using (List.mem_filter.mp hd0).2
  show (convTsFields d0.data).lookup kUserId = some (Value.prim u)
  rw [lookup_convTsFields, hp]
  rfl

/-- Witness for C3 at a concrete two-owner store. -/
theorem contacts_getAll_owner_isolation_witness :
    (StoredDoc.mk ("c1")
        (fieldsOf [("userId", .prim ("u1")), ("name", .prim ("alice"))])).data.lookup kUserId
      = some (Value.prim ("u1")) :=
  contacts_getAll_owner_isolation twoOwnerStore ("u1") _ (by decide)

/--
C4 counterexample: contactsService.getAll applies no sort at all.  On a
store holding the owner documents named beta then alpha, the returned list
keeps store order beta, alpha, which is not ascending lexicographic by
name, contradicting the claimed canonical contact ordering.
-/
theorem contacts_getAll_not_sorted_counterexample :
    (contactsGetAll unsortedContactsStore (some ("u"))).map contactNameOf
      = [("beta"), ("alpha")]
    ∧ ¬ List.Sorted (fun a b : StoredDoc => nameChars a ≤ nameChars b)
        (contactsGetAll unsortedContactsStore (some ("u"))) :=
  ⟨by decide, by decide⟩

/--
C4 as amended: contactsService.getAll returns the owner-filtered documents
with timestamps decoded, in exactly the order the store returned them — no
client-side sort by name is applied to contacts (ids and names of the
output coincide positionally with those of the filtered store list).
-/
theorem contacts_getAll_preserves_store_order (store : List StoredDoc) (u : Option String) :
    (contactsGetAll store u).map StoredDoc.id = (filterByOwner store u).map StoredDoc.id
    ∧ (contactsGetAll store u).map contactNameOf = (filterByOwner store u).map contactNameOf :=
  ⟨map_id_map_decode (filterByOwner store u), map_name_map_decode (filterByOwner store u)⟩

/--
C5: client-side date ordering.  ordersService.getAll returns a permutation
of the owner-filtered decoded order documents that is sorted descending by
the orderDate key, and remindersService.getAll returns a permutation of the
owner-filtered decoded reminder documents sorted ascending by the date key;
with pairwise distinct dates these orders are the strict descending and
ascending arrangements of the claim.
-/
theorem orders_desc_reminders_asc (ostore rstore : List StoredDoc) (u : Option String) :
    List.Sorted (fun a b => orderKey b ≤ orderKey a) (ordersGetAll ostore u)
    ∧ List.Perm (ordersGetAll ostore u) ((filterByOwner ostore u).map decodeDoc)
    ∧ List.Sorted (fun a b => reminderKey a ≤ reminderKey b) (remindersGetAll rstore u)
    ∧ List.Perm (remindersGetAll rstore u) ((filterByOwner rstore u).map decodeDoc) := by
  refine ⟨?_, ?_, ?_, ?_⟩
  · haveI ht : IsTotal StoredDoc (fun a b => orderKey b ≤ orderKey a) :=
      ⟨fun a b => le_total (orderKey b) (orderKey a)⟩
    haveI htr : IsTrans StoredDoc (fun a b => orderKey b ≤ orderKey a) :=
      ⟨fun _ _ _ h1 h2 => le_trans h2 h1⟩
    exact List.sorted_insertionSort _ _
  · exact List.perm_insertionSort _ _
  · haveI ht : IsTotal StoredDoc (fun a b => reminderKey a ≤ reminderKey b) :=
      ⟨fun a b => le_total (reminderKey a) (reminderKey b)⟩
    haveI htr : IsTrans StoredDoc (fun a b => reminderKey a ≤ reminderKey b) :=
      ⟨fun _ _ _ h1 h2 => le_trans h1 h2⟩
    exact List.sorted_insertionSort _ _
  · exact List.perm_insertionSort _ _

/--
C10: omitting the owner id pushes no where constraint, so getAll and the
onSnapshot delivery return the decoded documents of the whole collection —
every document of every owner appears in the result.
-/
theorem getAll_without_owner_returns_all (store : List StoredDoc) (d : StoredDoc)
    (hd : d ∈ store) :
    filterByOwner store none = store
    ∧ decodeDoc d ∈ contactsGetAll store none
    ∧ decodeDoc d ∈ contactsSnapshotList store none :=
  ⟨rfl, List.mem_map_of_mem decodeDoc hd, List.mem_map_of_mem decodeDoc hd⟩

/-- Witness for C10: with the filter omitted, the document of the second
owner is also in the result delivered by getAll and onSnapshot. -/
theorem getAll_without_owner_returns_all_witness :
    filterByOwner twoOwnerStore none = twoOwnerStore
    ∧ decodeDoc (StoredDoc.mk ("c2")
        (fieldsOf [("userId", .prim ("u2")), ("name", .prim ("bob"))])) ∈
          contactsGetAll twoOwnerStore none
    ∧ decodeDoc (StoredDoc.mk ("c2")
        (fieldsOf [("userId", .prim ("u2")), ("name", .prim ("bob"))])) ∈
          contactsSnapshotList twoOwnerStore none :=
  getAll_without_owner_returns_all twoOwnerStore _ (by decide)

/--
C6 counterexample: the claim quantifies over every entity kind, but
notesService.update merges the date-encoded patch alone, with no updatedAt
stamp.  Updating the text of a concrete note document changes the text and
leaves updatedAt exactly as it was, so the updatedAt timestamp does not
change.
-/
theorem notes_update_leaves_updatedAt_counterexample :
    (noteUpdateDoc noteDoc (fieldsOf [("text", Value.prim ("b"))])).data.lookup kUpdatedAt
      = some (Value.timestamp 1)
    ∧ noteDoc.data.lookup kUpdatedAt = some (Value.timestamp 1)
    ∧ (noteUpdateDoc noteDoc (fieldsOf [("text", Value.prim ("b"))])).data.lookup ("text")
      = some (Value.prim ("b")) := by
  decide

/--
C6 as amended: a single-field patch is a frame-preserving update for every
kind, but only the contacts, products and orders services stamp updatedAt;
the notes and reminders services touch neither timestamp.  For contacts:
the patched field takes the encoded value, every other field keeps its
prior value, updatedAt is stamped with the server time, createdAt is
unchanged.  For notes: the patched field takes the encoded value and every
other field — updatedAt and createdAt included — keeps its prior value.
-/
theorem update_single_field_frame (d : StoredDoc) (f : String) (v : Value) (now : Int)
    (g : String) (hfu : f ≠ kUpdatedAt) (hfc : f ≠ kCreatedAt) (hgf : g ≠ f)
    (hgu : g ≠ kUpdatedAt) :
    (contactUpdateDoc d (Fields.cons f v Fields.nil) now).data.lookup f
        = some (convDatesEntry v)
    ∧ (contactUpdateDoc d (Fields.cons f v Fields.nil) now).data.lookup g = d.data.lookup g
    ∧ (contactUpdateDoc d (Fields.cons f v Fields.nil) now).data.lookup kUpdatedAt
        = some (Value.timestamp now)
    ∧ (contactUpdateDoc d (Fields.cons f v Fields.nil) now).data.lookup kCreatedAt
        = d.data.lookup kCreatedAt
    ∧ (noteUpdateDoc d (Fields.cons f v Fields.nil)).data.lookup f = some (convDatesEntry v)
    ∧ (noteUpdateDoc d (Fields.cons f v Fields.nil)).data.lookup g = d.data.lookup g
    ∧ (noteUpdateDoc d (Fields.cons f v Fields.nil)).data.lookup kUpdatedAt
        = d.data.lookup kUpdatedAt
    ∧ (noteUpdateDoc d (Fields.cons f v Fields.nil)).data.lookup kCreatedAt
        = d.data.lookup kCreatedAt := by
  have hpatch : contactUpdatePayload (Fields.cons f v Fields.nil) now
      = Fields.cons f (convDatesEntry v)
          (Fields.cons kUpdatedAt (Value.timestamp now) Fields.nil) := by
    unfold contactUpdatePayload convertDatesToTimestamps
    simp [convDatesFields, Fields.set, hfu]
  have hdata : (contactUpdateDoc d (Fields.cons f v Fields.nil) now).data
      = (d.data.set f (convDatesEntry v)).set kUpdatedAt (Value.timestamp now) := by
    unfold contactUpdateDoc
    rw [hpatch]
    rfl
  have hnote : (noteUpdateDoc d (Fields.cons f v Fields.nil)).data
      = d.data.set f (convDatesEntry v) := rfl
  refine ⟨?_, ?_, ?_, ?_, ?_, ?_, ?_, ?_⟩
  · rw [hdata, Fields.lookup_set_ne _ _ _ _ (Ne.symm hfu), Fields.lookup_set_self]
  · rw [hdata, Fields.lookup_set_ne _ _ _ _ (Ne.symm hgu),
      Fields.lookup_set_ne _ _ _ _ (Ne.symm hgf)]
  · rw [hdata, Fields.lookup_set_self]
  · rw [hdata, Fields.lookup_set_ne _ _ _ _ (by decide), Fields.lookup_set_ne _ _ _ _ hfc]
  · rw [hnote, Fields.lookup_set_self]
  · rw [hnote, Fields.lookup_set_ne _ _ _ _ (Ne.symm hgf)]
  · rw [hnote, Fields.lookup_set_ne _ _ _ _ hfu]
  · rw [hnote, Fields.lookup_set_ne _ _ _ _ hfc]

/-- Witness for C6 at a concrete contact document, patching the name and
observing the phone, the timestamps and the note-service behaviour. -/
theorem update_single_field_frame_witness :
    (contactUpdateDoc contactDoc (Fields.cons kName (Value.prim ("bob")) Fields.nil) 9).data.lookup
        kName = some (convDatesEntry (Value.prim ("bob")))
    ∧ (contactUpdateDoc contactDoc (Fields.cons kName (Value.prim ("bob")) Fields.nil) 9).data.lookup
        ("phone") = contactDoc.data.lookup ("phone")
    ∧ (contactUpdateDoc contactDoc (Fields.cons kName (Value.prim ("bob")) Fields.nil) 9).data.lookup
        kUpdatedAt = some (Value.timestamp 9)
    ∧ (contactUpdateDoc contactDoc (Fields.cons kName (Value.prim ("bob")) Fields.nil) 9).data.lookup
        kCreatedAt = contactDoc.data.lookup kCreatedAt
    ∧ (noteUpdateDoc contactDoc (Fields.cons kName (Value.prim ("bob")) Fields.nil)).data.lookup
        kName = some (convDatesEntry (Value.prim ("bob")))
    ∧ (noteUpdateDoc contactDoc (Fields.cons kName (Value.prim ("bob")) Fields.nil)).data.lookup
        ("phone") = contactDoc.data.lookup ("phone")
    ∧ (noteUpdateDoc contactDoc (Fields.cons kName (Value.prim ("bob")) Fields.nil)).data.lookup
        kUpdatedAt = contactDoc.data.lookup kUpdatedAt
    ∧ (noteUpdateDoc contactDoc (Fields.cons kName (Value.prim ("bob")) Fields.nil)).data.lookup
        kCreatedAt = contactDoc.data.lookup kCreatedAt :=
  update_single_field_frame contactDoc kName (Value.prim ("bob")) 9 ("phone")
    (by decide) (by decide) (by decide) (by decide)

/--
C7 counterexample: the claim quantifies over every entity kind with both
createdAt and updatedAt server-stamped, but the notes add payload carries
no updatedAt at all, while the contacts add payload does.
-/
theorem notes_add_missing_updatedAt_counterexample :
    (noteAddPayload (fieldsOf [("text", Value.prim ("t"))]) ("u") 3).lookup kUpdatedAt = none
    ∧ (contactAddPayload (fieldsOf [("name", Value.prim ("n"))]) ("u") 3).lookup kUpdatedAt
      = some (Value.timestamp 3) := by
  decide

/--
C7 as amended: add persists a document whose userId equals the given owner
and returns the store-assigned id, with createdAt server-stamped and every
entity field date-encoded, for the contacts, notes and reminders services;
updatedAt is additionally stamped by the contacts service but not by the
notes or reminders services, whose payload carries updatedAt only if the
entity itself did.
-/
theorem add_assigns_owner_and_stamps (col : List StoredDoc) (entity : Fields) (uid : String)
    (now : Int) (fid : String) (g : String) (hg1 : g ≠ kUserId) (hg2 : g ≠ kCreatedAt)
    (hg3 : g ≠ kUpdatedAt) :
    (contactsAdd col entity uid now fid).1 = fid
    ∧ (contactsAdd col entity uid now fid).2
        = col ++ [⟨fid, contactAddPayload entity uid now⟩]
    ∧ (contactAddPayload entity uid now).lookup kUserId = some (Value.prim uid)
    ∧ (contactAddPayload entity uid now).lookup kCreatedAt = some (Value.timestamp now)
    ∧ (contactAddPayload entity uid now).lookup kUpdatedAt = some (Value.timestamp now)
    ∧ (contactAddPayload entity uid now).lookup g = (entity.lookup g).map convDatesEntry
    ∧ (notesAdd col entity uid now fid).1 = fid
    ∧ (notesAdd col entity uid now fid).2 = col ++ [⟨fid, noteAddPayload entity uid now⟩]
    ∧ (noteAddPayload entity uid now).lookup kUserId = some (Value.prim uid)
    ∧ (noteAddPayload entity uid now).lookup kCreatedAt = some (Value.timestamp now)
    ∧ (noteAddPayload entity uid now).lookup kUpdatedAt
        = (entity.lookup kUpdatedAt).map convDatesEntry
    ∧ (remindersAdd col entity uid now fid).1 = fid
    ∧ (reminderAddPayload entity uid now).lookup kUserId = some (Value.prim uid)
    ∧ (reminderAddPayload entity uid now).lookup kCreatedAt = some (Value.timestamp now)
    ∧ (reminderAddPayload entity uid now).lookup kUpdatedAt
        = (entity.lookup kUpdatedAt).map convDatesEntry := by
  have hc : contactAddPayload entity uid now
      = stampBoth uid now (convertDatesToTimestamps entity) := rfl
  have hn : noteAddPayload entity uid now
      = stampCreated uid now (convertDatesToTimestamps entity) := rfl
  have hr : reminderAddPayload entity uid now
      = stampCreated uid now (convertDatesToTimestamps entity) := rfl
  refine ⟨rfl, rfl, ?_, ?_, ?_, ?_, rfl, rfl, ?_, ?_, ?_, rfl, ?_, ?_, ?_⟩
  · rw [hc, stampBoth_lookup_userId]
  · rw [hc, stampBoth_lookup_createdAt]
  · rw [hc, stampBoth_lookup_updatedAt]
  · rw [hc, stampBoth_lookup_other uid now _ g hg1 hg2 hg3]
    exact lookup_convDatesFields entity g
  · rw [hn, stampCreated_lookup_userId]
  · rw [hn, stampCreated_lookup_createdAt]
  · rw [hn, stampCreated_lookup_other uid now _ kUpdatedAt (by decide) (by decide)]
    exact lookup_convDatesFields entity kUpdatedAt
  · rw [hr, stampCreated_lookup_userId]
  · rw [hr, stampCreated_lookup_createdAt]
  · rw [hr, stampCreated_lookup_other uid now _ kUpdatedAt (by decide) (by decide)]
    exact lookup_convDatesFields entity kUpdatedAt

/-- Witness for C7 adding a concrete contact and note for owner u. -/
theorem add_assigns_owner_and_stamps_witness :
    (contactsAdd [] (fieldsOf [("text", Value.prim ("t"))]) ("u") 3 ("gen-0")).1 = ("gen-0")
    ∧ (contactsAdd [] (fieldsOf [("text", Value.prim ("t"))]) ("u") 3 ("gen-0")).2
        = [] ++ [⟨("gen-0"), contactAddPayload (fieldsOf [("text", Value.prim ("t"))]) ("u") 3⟩]
    ∧ (contactAddPayload (fieldsOf [("text", Value.prim ("t"))]) ("u") 3).lookup kUserId
        = some (Value.prim ("u"))
    ∧ (contactAddPayload (fieldsOf [("text", Value.prim ("t"))]) ("u") 3).lookup kCreatedAt
        = some (Value.timestamp 3)
    ∧ (contactAddPayload (fieldsOf [("text", Value.prim ("t"))]) ("u") 3).lookup kUpdatedAt
        = some (Value.timestamp 3)
    ∧ (contactAddPayload (fieldsOf [("text", Value.prim ("t"))]) ("u") 3).lookup ("text")
        = ((fieldsOf [("text", Value.prim ("t"))]).lookup ("text")).map convDatesEntry
    ∧ (notesAdd [] (fieldsOf [("text", Value.prim ("t"))]) ("u") 3 ("gen-0")).1 = ("gen-0")
    ∧ (notesAdd [] (fieldsOf [("text", Value.prim ("t"))]) ("u") 3 ("gen-0")).2
        = [] ++ [⟨("gen-0"), noteAddPayload (fieldsOf [("text", Value.prim ("t"))]) ("u") 3⟩]
    ∧ (noteAddPayload (fieldsOf [("text", Value.prim ("t"))]) ("u") 3).lookup kUserId
        = some (Value.prim ("u"))
    ∧ (noteAddPayload (fieldsOf [("text", Value.prim ("t"))]) ("u") 3).lookup kCreatedAt
        = some (Value.timestamp 3)
    ∧ (noteAddPayload (fieldsOf [("text", Value.prim ("t"))]) ("u") 3).lookup kUpdatedAt
        = ((fieldsOf [("text", Value.prim ("t"))]).lookup kUpdatedAt).map convDatesEntry
    ∧ (remindersAdd [] (fieldsOf [("text", Value.prim ("t"))]) ("u") 3 ("gen-0")).1 = ("gen-0")
    ∧ (reminderAddPayload (fieldsOf [("text", Value.prim ("t"))]) ("u") 3).lookup kUserId
        = some (Value.prim ("u"))
    ∧ (reminderAddPayload (fieldsOf [("text", Value.prim ("t"))]) ("u") 3).lookup kCreatedAt
        = some (Value.timestamp 3)
    ∧ (reminderAddPayload (fieldsOf [("text", Value.prim ("t"))]) ("u") 3).lookup kUpdatedAt
        = ((fieldsOf [("text", Value.prim ("t"))]).lookup kUpdatedAt).map convDatesEntry :=
  add_assigns_owner_and_stamps [] (fieldsOf [("text", Value.prim ("t"))]) ("u") 3 ("gen-0")
    ("text") (by decide) (by decide) (by decide)

/--
C9 counterexample: useFirebaseData.updateContact performs the store call
with no session check.  Called with no active session on a concrete store,
it does not fail with the not-authenticated error; it succeeds and the
document is mutated by the store call.
-/
theorem facade_update_without_session_counterexample :
    hookUpdateContact none hookStoreC ("c1") (fieldsOf [("name", Value.prim ("new"))]) 5
      ≠ Except.error HookError.notAuthenticated
    ∧ hookUpdateContact none hookStoreC ("c1") (fieldsOf [("name", Value.prim ("new"))]) 5
      = Except.ok [⟨"c1", fieldsOf [("userId", Value.prim ("u")), ("name", Value.prim ("new")),
          ("updatedAt", Value.timestamp 5)]⟩] := by
  exact ⟨by decide, by decide⟩

/--
C9 as amended: among the facade CRUD operations of the useFirebaseData
hook, only the add operations check the session and fail fast with the
not-authenticated error before any store call; the update and delete
operations never consult the session — their result is identical with and
without an active session, and with no session they still perform the
delegated store call.
-/
theorem facade_session_check_only_on_add (u : String) (col : List StoredDoc)
    (entity patch : Fields) (id : String) (now : Int) (fid : String) :
    hookAddContact none col entity now fid = Except.error HookError.notAuthenticated
    ∧ hookAddNote none col entity now fid = Except.error HookError.notAuthenticated
    ∧ hookAddReminder none col entity now fid = Except.error HookError.notAuthenticated
    ∧ hookUpdateContact none col id patch now = hookUpdateContact (some u) col id patch now
    ∧ hookUpdateContact none col id patch now = Except.ok (contactsUpdate col id patch now)
    ∧ hookDeleteContact none col id = hookDeleteContact (some u) col id
    ∧ hookDeleteContact none col id = Except.ok (contactsDelete col id)
    ∧ hookUpdateOrder none col id patch now = Except.ok (ordersUpdate col id patch now)
    ∧ hookUpdateNote none col id patch = Except.ok (notesUpdate col id patch)
    ∧ hookDeleteNote none col id = Except.ok (notesDelete col id)
    ∧ hookUpdateReminder none col id patch = Except.ok (remindersUpdate col id patch) :=
  ⟨rfl, rfl, rfl, rfl, rfl, rfl, rfl, rfl, rfl, rfl, rfl⟩

/--
C1 counterexample: the claim requires the client-supplied local id of every
record to be discarded, but the vendor-info branch of migrateAllData
spreads the local vendor record verbatim, with no id removal.  Migrating a
dataset whose only record is a vendor profile carrying a local id field
commits successfully and yields a vendor document whose data still holds
that local id under the id key.
-/
theorem migrate_vendor_keeps_local_id_counterexample :
    ((migrateAllData vendorDs ("u") emptyStore6 7 none).toOption.map
        (fun s2 => s2.vendorInfo.map (fun d => d.data.lookup kId)))
      = some [some (Value.prim ("local-1"))] := by
  decide

/--
C1 as amended: migrateAllData with a dataset of N total records across the
six kinds either commits every record — the resulting store holds exactly N
new documents, every document is either a pre-existing one or carries the
given owner in userId and a server-stamped createdAt, the new contact
documents are addressed at the consecutive ids the store generator
assigns, and the five list kinds have the local id field discarded (the
vendor record alone is copied verbatim, so a local id field there is
retained in document data; notes and reminders receive createdAt only) —
or the single batch commit is rejected and no store results: zero new
documents are observable.
-/
theorem migrateAllData_all_or_nothing (ds : Dataset) (uid : String) (s : Store6) (now : Int) :
    (∃ s2, migrateAllData ds uid s now none = Except.ok s2
      ∧ totalDocs s2 = totalDocs s + datasetSize ds
      ∧ s2.contacts.map StoredDoc.id
          = s.contacts.map StoredDoc.id ++ genIds s.nextId ds.contacts.length
      ∧ (∀ d ∈ s2.contacts, d ∈ s.contacts ∨ (d.data.lookup kUserId = some (Value.prim uid)
          ∧ d.data.lookup kCreatedAt = some (Value.timestamp now)
          ∧ d.data.lookup kId = none))
      ∧ (∀ d ∈ s2.products, d ∈ s.products ∨ (d.data.lookup kUserId = some (Value.prim uid)
          ∧ d.data.lookup kCreatedAt = some (Value.timestamp now)
          ∧ d.data.lookup kId = none))
      ∧ (∀ d ∈ s2.orders, d ∈ s.orders ∨ (d.data.lookup kUserId = some (Value.prim uid)
          ∧ d.data.lookup kCreatedAt = some (Value.timestamp now)
          ∧ d.data.lookup kId = none))
      ∧ (∀ d ∈ s2.notes, d ∈ s.notes ∨ (d.data.lookup kUserId = some (Value.prim uid)
          ∧ d.data.lookup kCreatedAt = some (Value.timestamp now)
          ∧ d.data.lookup kId = none))
      ∧ (∀ d ∈ s2.reminders, d ∈ s.reminders ∨ (d.data.lookup kUserId = some (Value.prim uid)
          ∧ d.data.lookup kCreatedAt = some (Value.timestamp now)
          ∧ d.data.lookup kId = none))
      ∧ (∀ d ∈ s2.vendorInfo, d ∈ s.vendorInfo ∨ (d.data.lookup kUserId = some (Value.prim uid)
          ∧ d.data.lookup kCreatedAt = some (Value.timestamp now))))
    ∧ (∀ e, migrateAllData ds uid s now (some e) = Except.error (AppError.store e)) := by
  constructor
  · refine ⟨_, rfl, ?_, ?_, ?_, ?_, ?_, ?_, ?_, ?_⟩
    · cases hv : ds.vendorInfo <;>
        simp [totalDocs, datasetSize, hv, length_migrateKind] <;> omega
    · simp [map_id_migrateKind]
    · intro d hd
      rcases List.mem_append.mp hd with h | h
      · exact Or.inl h
      · exact Or.inr (migrateKind_mem_stamped _ _ _ _ _ _ _ h)
    · intro d hd
      rcases List.mem_append.mp hd with h | h
      · exact Or.inl h
      · exact Or.inr (migrateKind_mem_stamped _ _ _ _ _ _ _ h)
    · intro d hd
      rcases List.mem_append.mp hd with h | h
      · exact Or.inl h
      · exact Or.inr (migrateKind_mem_stamped _ _ _ _ _ _ _ h)
    · intro d hd
      rcases List.mem_append.mp hd with h | h
      · exact Or.inl h
      · exact Or.inr (migrateKind_mem_stamped _ _ _ _ _ _ _ h)
    · intro d hd
      rcases List.mem_append.mp hd with h | h
      · exact Or.inl h
      · exact Or.inr (migrateKind_mem_stamped _ _ _ _ _ _ _ h)
    · intro d hd
      rcases List.mem_append.mp hd with h | h
      · exact Or.inl h
      · right
        cases hv : ds.vendorInfo with
        | none =>
          rw [hv] at h
          cases h
        | some v =>
          rw [hv] at h
          obtain rfl := List.mem_singleton.mp h
          exact ⟨stampBoth_lookup_userId uid now v, stampBoth_lookup_createdAt uid now v⟩
  · intro e
    rfl

/-- Witness for C1: migrating a concrete dataset of one contact and one
note into the empty store succeeds with two new documents at the first two
generator ids. -/
theorem migrateAllData_all_or_nothing_witness :
    ∃ s2, migrateAllData smallDs ("u") emptyStore6 7 none = Except.ok s2
      ∧ totalDocs s2 = totalDocs emptyStore6 + datasetSize smallDs
      ∧ s2.contacts.map StoredDoc.id
          = emptyStore6.contacts.map StoredDoc.id
            ++ genIds emptyStore6.nextId smallDs.contacts.length := by
  obtain ⟨⟨s2, h1, h2, h3, _⟩, _⟩ := migrateAllData_all_or_nothing smallDs ("u") emptyStore6 7
  exact ⟨s2, h1, h2, h3⟩

/--
C8 counterexample: the claim requires a rejected commit to surface as a
MigrationError wrapping the store error, but the catch block of
migrateAllData rethrows the raw error unchanged: on a concrete rejected
commit the result is the raw store error and is not the migration wrapper.
-/
theorem migrate_error_not_wrapped_counterexample :
    migrateAllData smallDs ("u") emptyStore6 7 (some StoreError.permissionDenied)
      = Except.error (AppError.store StoreError.permissionDenied)
    ∧ errIsMigrationWrapper (migrateAllData smallDs ("u") emptyStore6 7
        (some StoreError.permissionDenied)) = false := by
  decide

/--
C8 as amended: when the atomic batch commit is rejected for any reason,
migrateAllData propagates the underlying store error unchanged — no
MigrationError wrapper exists in the code — and the result carries no
store, so no partial application of the migrated records is observable to
the caller.
-/
theorem migrateAllData_propagates_raw_error (ds : Dataset) (uid : String) (s : Store6)
    (now : Int) (e : StoreError) :
    migrateAllData ds uid s now (some e) = Except.error (AppError.store e)
    ∧ errIsMigrationWrapper (migrateAllData ds uid s now (some e)) = false :=
  ⟨rfl, rfl⟩

end Crm3
